import Mathlib

/-!
Verification of the persistent-volume control plane of this repository.

Namespace `Petco` embeds `pkg/petco/persistent_volume_binder.go`: the
in-memory volume index (`genericPersistentVolumeIndex`) with its `Add`,
`Exists` and `Match` operations, together with the access-mode helpers
`GetAccessModeType` and `GetAccessModesAsString`.

Namespace `VCB` embeds the `volumeclaimbinder` controller
(`PersistentVolumeController.reconcileClaim`, `reconcileVolume` and the
background `recycleVolume` / `deleteVolume` tasks).  The API client facade
is modelled as an environment record: each fallible remote call is an
oracle field, and a successful write is echoed back as the written object.
Lists of issued writes are threaded through the results so that theorems
can speak about what the controller writes to the API.
-/

namespace Petco

/-- Access-mode capability set; mirrors `api.AccessModeType`, whose three
pointer fields encode presence of RWO / ROX / RWX. -/
structure AccessModeType where
  rwo : Bool
  rox : Bool
  rwx : Bool
deriving DecidableEq

/-- Back-end descriptor; mirrors the pointer fields of `api.VolumeSource`
consulted by `GetAccessModeType` (AWSElasticBlockStore, GCEPersistentDisk,
NFSMount), checked in source order. -/
structure VolumeSource where
  aws : Bool
  gce : Bool
  nfs : Bool
deriving DecidableEq

/-- `GetAccessModeType` from persistent_volume_binder.go: the access modes
implied by a volume's source, testing the pointer fields in order. -/
def GetAccessModeType (s : VolumeSource) : AccessModeType :=
  if s.aws then ⟨true, false, false⟩
  else if s.gce then ⟨true, true, false⟩
  else if s.nfs then ⟨true, true, true⟩
  else ⟨false, false, false⟩

/-- `GetAccessModesAsString`: canonical signature string over RWO/ROX/RWX. -/
def GetAccessModesAsString (m : AccessModeType) : String :=
  (if m.rwo then "RWO" else "") ++ (if m.rox then "ROX" else "") ++
    (if m.rwx then "RWX" else "")

/-- A persistent volume as the petco binder sees it: opaque identity (UID),
capacity (the `int64` value of `Spec.Capacity[api.ResourceSize]`), source,
and the claim reference recorded on its status (the binder's test data sets
`Status.PersistentVolumeClaimReference`; `Match` never consults it). -/
structure PV where
  uid : String
  capacity : Int
  source : VolumeSource
  claimRefUID : Option String
deriving DecidableEq

/-- The index cache `map[string][]*api.PersistentVolume`: key presence
matters (`Exists` checks the UID key), so the map is a function into
`Option`.  A missing key reads as the empty slice. -/
def PVIndex : Type := String → Option (List PV)

/-- Pointwise map update, the Go `m[k] = v`. -/
def updateIdx (c : PVIndex) (k : String) (v : Option (List PV)) : PVIndex :=
  fun q => if q = k then v else c q

/-- The empty index produced by `NewPersistentVolumeIndex`. -/
def emptyIndex : PVIndex := fun _ => none

/-- `genericPersistentVolumeIndex.Exists`: UID key presence in the cache. -/
def existsVol (v : PV) (c : PVIndex) : Bool :=
  (c v.uid).isSome

/-- Capacity order used by `PersistentVolumeComparator.Less` (`aSize < bSize`);
`sort.Sort` is modelled as insertion sort under the reflexive closure. -/
def pvLe (a b : PV) : Prop := a.capacity ≤ b.capacity

instance : DecidableRel pvLe := fun a b => Int.decLe a.capacity b.capacity

instance : IsTotal PV pvLe := ⟨fun a b => Int.le_total a.capacity b.capacity⟩

instance : IsTrans PV pvLe := ⟨fun _ _ _ h h2 => Int.le_trans h h2⟩

/-- The `sort.Sort(PersistentVolumeComparator(...))` call, modelled as a
deterministic sort by capacity ascending. -/
def sortPV (l : List PV) : List PV := l.insertionSort pvLe

/-- The signature string a volume is grouped under in `Add`: derived from
its source, not from any declared mode list. -/
def sigOf (v : PV) : String := GetAccessModesAsString (GetAccessModeType v.source)

/-- First statement of `Add`: `if _, ok := cache[modesStr]; !ok` create the
empty group. -/
def addStep1 (v : PV) (c : PVIndex) : PVIndex :=
  if (c (sigOf v)).isSome then c else updateIdx c (sigOf v) (some [])

/-- Second statement of `Add`: `if !binder.Exists(volume)` store the
singleton under the UID key and append the volume to its signature group
(the group is re-read after the UID write, as in the Go: the two keys live
in the same map). -/
def addStep2 (v : PV) (c : PVIndex) : PVIndex :=
  if existsVol v c then c
  else
    updateIdx (updateIdx c v.uid (some [v])) (sigOf v)
      (some ((((updateIdx c v.uid (some [v])) (sigOf v)).getD []) ++ [v]))

/-- `genericPersistentVolumeIndex.Add`: ensure the signature group exists,
conditionally insert keyed by UID, then sort the signature group. -/
def addVolume (v : PV) (c : PVIndex) : PVIndex :=
  updateIdx (addStep2 v (addStep1 v c)) (sigOf v)
    (some (sortPV (((addStep2 v (addStep1 v c)) (sigOf v)).getD [])))

/-- A claim as the binder sees it: requested modes and the `int64` value of
`Spec.Resources[api.ResourceSize]`. -/
structure PVClaim where
  name : String
  namespaceName : String
  accessModes : AccessModeType
  requestedSize : Int
deriving DecidableEq

/-- `genericPersistentVolumeIndex.Match`: look up the group keyed by the
claim's exact mode string and return the first volume there whose capacity
is at least the requested size. -/
def matchVolume (c : PVIndex) (claim : PVClaim) : Option PV :=
  let desiredModes := GetAccessModesAsString claim.accessModes
  let desiredSize := claim.requestedSize
  let volumes := (c desiredModes).getD []
  volumes.find? (fun v => decide (desiredSize ≤ v.capacity))

/-- Boolean superset test on access-mode sets, used to state what the spec
calls an acceptable signature. -/
def modesSuperset (a b : AccessModeType) : Bool :=
  (!b.rwo || a.rwo) && (!b.rox || a.rox) && (!b.rwx || a.rwx)

theorem updateIdx_apply_self (c : PVIndex) (k : String) (x : Option (List PV)) :
    updateIdx c k x k = x := by
  simp [updateIdx]

theorem updateIdx_apply_ne (c : PVIndex) {k q : String} (x : Option (List PV))
    (h : q ≠ k) : updateIdx c k x q = c q := by
  simp [updateIdx, h]

theorem sortPV_idem (l : List PV) : sortPV (sortPV l) = sortPV l :=
  (List.sorted_insertionSort pvLe l).insertionSort_eq

theorem addVolume_sig (v : PV) (c : PVIndex) :
    addVolume v c (sigOf v) =
      some (sortPV (((addStep2 v (addStep1 v c)) (sigOf v)).getD [])) :=
  updateIdx_apply_self _ _ _

theorem existsVol_addStep2 (v : PV) (c : PVIndex) :
    existsVol v (addStep2 v c) = true := by
  unfold addStep2
  split
  · assumption
  · unfold existsVol
    by_cases h : v.uid = sigOf v
    · rw [h, updateIdx_apply_self]
      rfl
    · rw [updateIdx_apply_ne _ _ h, updateIdx_apply_self]
      rfl

theorem existsVol_addVolume (v : PV) (c : PVIndex) :
    existsVol v (addVolume v c) = true := by
  unfold addVolume existsVol
  by_cases h : v.uid = sigOf v
  · rw [h, updateIdx_apply_self]
    rfl
  · rw [updateIdx_apply_ne _ _ h]
    exact existsVol_addStep2 v (addStep1 v c)

/-- C9: repeated adds of the same volume are idempotent — running `Add`
twice from any index state leaves exactly the contents one `Add` leaves. -/
theorem addVolume_idem (v : PV) (c : PVIndex) :
    addVolume v (addVolume v c) = addVolume v c := by
  have h1 : addStep1 v (addVolume v c) = addVolume v c := by
    unfold addStep1
    rw [if_pos (by rw [addVolume_sig]; rfl)]
  have h2 : addStep2 v (addVolume v c) = addVolume v c := by
    unfold addStep2
    rw [if_pos (existsVol_addVolume v c)]
  show updateIdx (addStep2 v (addStep1 v (addVolume v c))) (sigOf v)
      (some (sortPV (((addStep2 v (addStep1 v (addVolume v c))) (sigOf v)).getD []))) =
    addVolume v c
  rw [h1, h2]
  funext q
  by_cases hq : q = sigOf v
  · subst hq
    rw [updateIdx_apply_self, addVolume_sig]
    simp [sortPV_idem]
  · exact updateIdx_apply_ne _ _ hq

/-! Fixtures from `createTestVolumes` in persistent_volume_binder_test.go.
Capacities are the `int64` values of `resource.MustParse` on "1G", "5G",
"10G", "50G"; GCE sources derive RWO+ROX, NFS all three, AWS RWO only.
`nfs-50-bound` carries the status claim reference `abc123` set by the test. -/

def gce5 : PV := ⟨"gce-pd-5", 5000000000, ⟨false, true, false⟩, none⟩

def gce1 : PV := ⟨"gce-pd-1", 1000000000, ⟨false, true, false⟩, none⟩

def gce10 : PV := ⟨"gce-pd-10", 10000000000, ⟨false, true, false⟩, none⟩

def nfs5 : PV := ⟨"nfs-5", 5000000000, ⟨false, false, true⟩, none⟩

def nfs1 : PV := ⟨"nfs-1", 1000000000, ⟨false, false, true⟩, none⟩

def nfs10 : PV := ⟨"nfs-10", 10000000000, ⟨false, false, true⟩, none⟩

def nfs50Bound : PV := ⟨"nfs-50-bound", 50000000000, ⟨false, false, true⟩, some "abc123"⟩

def aws5 : PV := ⟨"aws-ebs-5", 5000000000, ⟨true, false, false⟩, none⟩

def aws1 : PV := ⟨"aws-ebs-1", 1000000000, ⟨true, false, false⟩, none⟩

def aws10 : PV := ⟨"aws-ebs-10", 10000000000, ⟨true, false, false⟩, none⟩

/-- The volumes of `createTestVolumes`, in test order. -/
def testVolumes : List PV :=
  [gce5, gce1, gce10, nfs5, nfs1, nfs10, nfs50Bound, aws5, aws1, aws10]

/-- The index the binder test builds by adding every test volume. -/
def testIndex : PVIndex := testVolumes.foldl (fun c v => addVolume v c) emptyIndex

/-- The third claim of `TestMatchVolume`: RWO+ROX+RWX, 50G. -/
def claim50 : PVClaim := ⟨"claim01", "myns", ⟨true, true, true⟩, 50000000000⟩

/-- An RWO claim requesting 10G. -/
def claimRwo10 : PVClaim := ⟨"claim01", "myns", ⟨true, false, false⟩, 10000000000⟩

/-- C1 counterexample: with only a GCE volume (signature RWO+ROX) indexed,
an RWO claim finds nothing, although that volume's mode set is a superset
of the request and its capacity suffices — the query never consults the
superset-signature group. -/
theorem match_ignores_superset_groups :
    matchVolume (addVolume gce10 emptyIndex) claimRwo10 = none ∧
      modesSuperset (GetAccessModeType gce10.source) claimRwo10.accessModes = true ∧
      claimRwo10.requestedSize ≤ gce10.capacity ∧
      existsVol gce10 (addVolume gce10 emptyIndex) = true := by
  decide

/-- C1 amended: the query searches only the group keyed by the claim's
exact requested-mode string — a returned volume belongs to that group and
has sufficient capacity, and when that group has no volume of sufficient
capacity the query returns nil regardless of any other group. -/
theorem match_searches_exact_group_only (c : PVIndex) (claim : PVClaim) :
    (∀ v, matchVolume c claim = some v →
      v ∈ (c (GetAccessModesAsString claim.accessModes)).getD [] ∧
        claim.requestedSize ≤ v.capacity) ∧
    (matchVolume c claim = none →
      ∀ v ∈ (c (GetAccessModesAsString claim.accessModes)).getD [],
        v.capacity < claim.requestedSize) := by
  constructor
  · intro v h
    refine ⟨List.mem_of_find?_eq_some h, ?_⟩
    have := List.find?_some h
    simpa using this
  · intro h v hv
    have := List.find?_eq_none.mp h v hv
    simp only [decide_eq_true_eq] at this
    omega

/-- Witness for the amended C1 theorem at a concrete input. -/
theorem match_searches_exact_group_only_witness :
    aws10 ∈ ((addVolume aws10 emptyIndex)
        (GetAccessModesAsString claimRwo10.accessModes)).getD [] ∧
      claimRwo10.requestedSize ≤ aws10.capacity :=
  (match_searches_exact_group_only (addVolume aws10 emptyIndex) claimRwo10).1
    aws10 (by decide)

/-- C2: evaluated at the repository's own test fixture, `Match` returns
`nfs-50-bound`, a volume whose status claim reference points at another
claim — the test `TestMatchVolume` expects nil here. -/
theorem match_returns_volume_bound_to_other_claim :
    matchVolume testIndex claim50 = some nfs50Bound ∧
      nfs50Bound.claimRefUID = some "abc123" := by
  decide

/-- C8: a volume indexed in the group of its own signature, when that
signature equals the claim's requested-mode string and its capacity exactly
equals the requested capacity, guarantees that the query finds a match
(the capacity comparison is non-strict). -/
theorem match_capacity_equality_suffices (c : PVIndex) (claim : PVClaim) (v : PV)
    (hsig : sigOf v = GetAccessModesAsString claim.accessModes)
    (hmem : v ∈ (c (sigOf v)).getD [])
    (hcap : v.capacity = claim.requestedSize) :
    (matchVolume c claim).isSome = true := by
  rw [hsig] at hmem
  unfold matchVolume
  rw [List.find?_isSome]
  exact ⟨v, hmem, by simp [hcap]⟩

/-- Witness for C8 at a concrete input: one AWS volume of 10G, an RWO
claim requesting exactly 10G. -/
theorem match_capacity_equality_suffices_witness :
    (matchVolume (addVolume aws10 emptyIndex) claimRwo10).isSome = true :=
  match_capacity_equality_suffices (addVolume aws10 emptyIndex) claimRwo10 aws10
    (by decide) (by decide) (by decide)

end Petco

namespace VCB

/-- `api.PersistentVolumeAccessMode` of the 2015 api. -/
inductive AccessMode where
  | rwo
  | rox
  | rwx
deriving DecidableEq

/-- `api.PersistentVolumeReclaimPolicy`. -/
inductive ReclaimPolicy where
  | retain
  | recycle
  | delete
deriving DecidableEq

/-- `api.PersistentVolumePhase`. -/
inductive VolumePhase where
  | pending
  | available
  | bound
  | released
  | failed
deriving DecidableEq

/-- `api.PersistentVolumeClaimPhase`. -/
inductive ClaimPhase where
  | pending
  | bound
deriving DecidableEq

/-- `api.ObjectReference` as produced by `api.GetReference` on a claim. -/
structure ObjectReference where
  namespaceName : String
  name : String
deriving DecidableEq

/-- Annotation maps, modelled as association lists (the code only looks up,
inserts and replaces by key; a nil Go map behaves as the empty list). -/
abbrev Anns : Type := List (String × String)

/-- The `keyExists` helper of the controller. -/
def keyExists (key : String) (haystack : Anns) : Bool :=
  haystack.any (fun p => p.1 == key)

/-- Annotation lookup, `haystack[key]` with the missing-key zero value. -/
def lookupAnn (haystack : Anns) (key : String) : Option String :=
  (haystack.find? (fun p => p.1 == key)).map (fun p => p.2)

/-- The `isAnnotationMatch` helper of the controller. -/
def isAnnotationMatch (key needle : String) (haystack : Anns) : Bool :=
  match lookupAnn haystack key with
  | none => false
  | some value => value == needle

/-- Go map assignment `m[key] = value`: replace in place or append. -/
def setAnn (haystack : Anns) (key value : String) : Anns :=
  if keyExists key haystack then
    haystack.map (fun p => if p.1 == key then (key, value) else p)
  else
    haystack ++ [(key, value)]

/-- Reserved annotation keys, exactly as in the controller source. -/
def pvRecycleRequired : String := "volume.experimental.kubernetes.io/recycle-required"

def pvRecycleCompleted : String := "volume.experimental.kubernetes.io/recycle-completed"

def pvDeleteRequired : String := "volume.experimental.kubernetes.io/delete-required"

def pvDeleteCompleted : String := "volume.experimental.kubernetes.io/delete-completed"

def pvProvisioningRequired : String := "volume.experimental.kubernetes.io/provisioning-required"

def pvProvisioningCompleted : String := "volume.experimental.kubernetes.io/provisioning-completed"

def provisionedForKey : String := "volume.experimental.kubernetes.io/provisioned-for"

def qosProvisioningKey : String := "volume.experimental.kubernetes.io/quality-of-service"

/-- A persistent volume as the controller sees it: spec fields consulted by
the reconcilers plus the status phase and message. -/
structure Volume where
  name : String
  capacity : Int
  accessModes : List AccessMode
  reclaimPolicy : ReclaimPolicy
  claimRef : Option ObjectReference
  annotations : Anns
  phase : VolumePhase
  message : String
deriving DecidableEq

/-- A persistent volume claim as the controller sees it. -/
structure Claim where
  name : String
  namespaceName : String
  volumeName : String
  annotations : Anns
  accessModes : List AccessMode
  requestedCapacity : Int
  phase : ClaimPhase
deriving DecidableEq

/-- Set one annotation on a volume. -/
def setAnnVol (pv : Volume) (key value : String) : Volume :=
  { pv with annotations := setAnn pv.annotations key value }

/-- `api.GetReference` restricted to what the controller stores of it. -/
def refOf (c : Claim) : ObjectReference := ⟨c.namespaceName, c.name⟩

/-- Modelled from the spec: `ClaimToProvisionableKey` (defined next to the
ordered index, whose source file is not in the tree) builds the
`"<namespace>/<name>"` key of the originating claim. -/
def claimToProvisionableKey (c : Claim) : String :=
  c.namespaceName ++ "/" ++ c.name

/-- The cache key the volume reconciler builds for a claim reference,
`fmt.Sprintf("%s/%s", ref.Namespace, ref.Name)`. -/
def refKey (ref : ObjectReference) : String :=
  ref.namespaceName ++ "/" ++ ref.name

/-- `pvRequiresRecycleOrDelete`. -/
def pvRequiresRecycleOrDelete (pv : Volume) : Bool :=
  pv.phase == VolumePhase.released &&
    isRecyclable pv.reclaimPolicy &&
    !(keyExists pvRecycleRequired pv.annotations) &&
    !(keyExists pvDeleteRequired pv.annotations)
where
  /-- `isRecyclable`: the policy calls for recycling or deletion. -/
  isRecyclable (policy : ReclaimPolicy) : Bool :=
    policy == ReclaimPolicy.delete || policy == ReclaimPolicy.recycle

/-- `awaitingRecycleToComplete`. -/
def awaitingRecycleToComplete (pv : Volume) : Bool :=
  keyExists pvRecycleRequired pv.annotations &&
    !(isAnnotationMatch pvRecycleRequired pvRecycleCompleted pv.annotations)

/-- `recycleIsComplete`. -/
def recycleIsComplete (pv : Volume) : Bool :=
  isAnnotationMatch pvRecycleRequired pvRecycleCompleted pv.annotations

/-- `awaitingDeleteToComplete`. -/
def awaitingDeleteToComplete (pv : Volume) : Bool :=
  keyExists pvDeleteRequired pv.annotations &&
    !(isAnnotationMatch pvDeleteRequired pvDeleteCompleted pv.annotations)

/-- `deleteIsComplete`. -/
def deleteIsComplete (pv : Volume) : Bool :=
  isAnnotationMatch pvDeleteRequired pvDeleteCompleted pv.annotations

/-- A provisioner plugin, reduced to what `reconcileClaim` observes of it:
the volume object `NewPersistentVolumeTemplate` returns (the errors of
`NewCreater` and of the template call are shadowed and never checked in the
source). -/
structure Plugin where
  template : Volume
deriving DecidableEq

/-- `api.PersistentVolumeClaimStatus`: phase plus the granted capacity and
mode set (absent on a bare `{Phase: ...}` literal). -/
structure ClaimStatus where
  phase : ClaimPhase
  capacity : Option Int
  accessModes : List AccessMode
deriving DecidableEq

/-- The bare `{Phase: api.ClaimPending}` status literal. -/
def pendingClaimStatus : ClaimStatus := ⟨ClaimPhase.pending, none, []⟩

/-- Environment of `reconcileClaim`: the volume cache, the best-match query
(whose ordered-index implementation is external to the reconciler), the
registry, and the outcome of each fallible remote call.  A successful write
is echoed back as the written object. -/
structure ClaimEnv where
  volumeStore : String → Option Volume
  findBestMatch : Except String (Option Volume)
  plugins : String → Option Plugin
  getRefFails : Bool
  updateClaimFails : Bool
  createVolumeFails : Bool


/-- Result of `reconcileClaim`: the claim variable as returned, the status,
the error, and every write issued to the API facade during the call. -/
structure ClaimResult where
  claim : Claim
  status : ClaimStatus
  err : Option String
  volumeUpdates : List Volume
  claimUpdates : List Claim
  volumeCreates : List Volume
deriving DecidableEq

/-- `PersistentVolumeController.reconcileClaim`, branch for branch.

Bound branch (`claim.Spec.VolumeName != ""`): missing volume is an error;
a volume without a back-reference gets one (volume write, failure only
logged) and the branch then returns `ClaimBound` with the volume's
capacity and modes; a volume with any back-reference returns `ClaimBound`
directly.

Unbound path: a search error surfaces; a match sets the claim's volume
name and writes the claim, rolling the name back on write failure; with no
match, a quality-of-service annotation with a registered plugin creates a
pre-bound volume stamped `provisioned-for` / `provisioning-required` /
qos; otherwise the claim stays `ClaimPending`. -/
def reconcileClaim (env : ClaimEnv) (claim : Claim) : ClaimResult :=
  if claim.volumeName ≠ "" then
    match env.volumeStore claim.volumeName with
    | none =>
        ⟨claim, pendingClaimStatus,
          some "PersistentVolumeClaim could not find bound volume", [], [], []⟩
    | some pv =>
        match pv.claimRef with
        | none =>
            if env.getRefFails then
              ⟨claim, ⟨ClaimPhase.pending, some pv.capacity, pv.accessModes⟩,
                some "Error getting claim reference for bind", [], [], []⟩
            else
              ⟨claim, ⟨ClaimPhase.bound, some pv.capacity, pv.accessModes⟩,
                none, [{ pv with claimRef := some (refOf claim) }], [], []⟩
        | some _ =>
            ⟨claim, ⟨ClaimPhase.bound, some pv.capacity, pv.accessModes⟩,
              none, [], [], []⟩
  else
    match env.findBestMatch with
    | Except.error e =>
        ⟨claim, pendingClaimStatus, some ("encountered error: " ++ e), [], [], []⟩
    | Except.ok (some pv) =>
        let claim1 := { claim with volumeName := pv.name }
        if env.updateClaimFails then
          ⟨{ claim1 with volumeName := "" }, pendingClaimStatus,
            some "Error updating claim", [], [claim1], []⟩
        else if env.getRefFails then
          ⟨claim1, pendingClaimStatus,
            some "Error getting reference to claim", [], [claim1], []⟩
        else
          ⟨claim1, pendingClaimStatus, none, [], [claim1], []⟩
    | Except.ok none =>
        if !(keyExists qosProvisioningKey claim.annotations) then
          ⟨claim, pendingClaimStatus, none, [], [], []⟩
        else
          let qos := (lookupAnn claim.annotations qosProvisioningKey).getD ""
          match env.plugins qos with
          | some plugin =>
              if env.getRefFails then
                ⟨claim, pendingClaimStatus,
                  some "Unexpected error getting claim reference", [], [], []⟩
              else
                let newVolume :=
                  { plugin.template with
                      claimRef := some (refOf claim),
                      annotations :=
                        setAnn
                          (setAnn
                            (setAnn plugin.template.annotations provisionedForKey
                              (claimToProvisionableKey claim))
                            pvProvisioningRequired "true")
                          qosProvisioningKey qos }
                if env.createVolumeFails then
                  ⟨claim, pendingClaimStatus,
                    some "PersistentVolumeClaim failed provisioning",
                    [], [], [newVolume]⟩
                else
                  ⟨claim, pendingClaimStatus, none, [], [], [newVolume]⟩
          | none =>
              ⟨claim, pendingClaimStatus,
                some ("No provisioner found for qos request: " ++ qos), [], [], []⟩

/-- `api.PersistentVolumeStatus`: phase, message, reason. -/
structure VolumeStatus where
  phase : VolumePhase
  message : String
  reason : String
deriving DecidableEq

/-- Outcome of the API read confirming a claim's existence. -/
inductive GetClaimOutcome where
  | found (c : Claim)
  | notFound
  | otherErr (e : String)
deriving DecidableEq

/-- Environment of `reconcileVolume`: the claim cache, the confirming API
read, and the outcome of volume update / delete calls (`none` = success). -/
structure VolumeEnv where
  claimStore : String → Option Claim
  getClaim : GetClaimOutcome
  updateVolumeErr : Option String
  deleteVolumeErr : Option String


/-- Result of `reconcileVolume`.  `crash` records a nil-pointer dereference
of `pv.Spec.ClaimRef` (a Go panic), together with the volume writes already
issued before the dereference. -/
inductive VolumeResult where
  | crash (updates : List Volume)
  | ok (pv : Option Volume) (status : VolumeStatus) (err : Option String)
      (updates : List Volume) (deletes : List Volume)
deriving DecidableEq

/-- Bind verification and provisioning checks of `reconcileVolume` once a
claim has been found (lines following the security check): mismatched
names fail loudly; without a `provisioning-required` key the volume is
`Bound`; a completed provisioning cross-checks `provisioned-for`; an
uncompleted one reports `Pending`. -/
def reconcileVolumeMatched (pv : Volume) (c : Claim) (upds : List Volume) :
    VolumeResult :=
  if pv.name ≠ c.volumeName then
    VolumeResult.ok (some pv)
      ⟨VolumePhase.failed, "Mismatched claim/volume names", ""⟩
      (some "Mismatched claim/volume names") upds []
  else if !(keyExists pvProvisioningRequired pv.annotations) then
    VolumeResult.ok (some pv) ⟨VolumePhase.bound, "", ""⟩ none upds []
  else if isAnnotationMatch pvProvisioningRequired pvProvisioningCompleted
      pv.annotations then
    if (lookupAnn pv.annotations provisionedForKey).getD "" ≠
        claimToProvisionableKey c then
      VolumeResult.ok (some pv)
        ⟨VolumePhase.failed, "Mismatched claim/volume annotations", ""⟩
        (some "pre-bind mismatch") upds []
    else
      VolumeResult.ok (some pv) ⟨VolumePhase.bound, "", ""⟩ none upds []
  else
    VolumeResult.ok (some pv)
      ⟨VolumePhase.pending, "Awaiting provisioning", ""⟩ none upds []

/-- Tail of `reconcileVolume` after the recycle-complete block: the
delete-complete block, then the claim lookup that dereferences
`pv.Spec.ClaimRef` unconditionally, then bind verification and the
provisioning checks.  `upds` carries writes already issued. -/
def reconcileVolumeTail (env : VolumeEnv) (pv : Volume) (upds : List Volume) :
    VolumeResult :=
  if deleteIsComplete pv then
    match env.deleteVolumeErr with
    | some e => VolumeResult.ok (some pv) ⟨VolumePhase.failed, e, ""⟩ (some e) upds []
    | none => VolumeResult.ok none ⟨VolumePhase.released, "", ""⟩ none upds [pv]
  else
    match pv.claimRef with
    | none => VolumeResult.crash upds
    | some ref =>
        match env.claimStore (refKey ref) with
        | none =>
            match env.getClaim with
            | GetClaimOutcome.notFound =>
                VolumeResult.ok (some pv) ⟨VolumePhase.released, "", ""⟩ none upds []
            | GetClaimOutcome.otherErr e =>
                VolumeResult.ok (some pv)
                  ⟨VolumePhase.failed, "Error getting claim", e⟩ (some e) upds []
            | GetClaimOutcome.found c => reconcileVolumeMatched pv c upds
        | some c => reconcileVolumeMatched pv c upds

/-- `PersistentVolumeController.reconcileVolume`, branch for branch: the
available / stamp-required / awaiting-operation blocks, then the
recycle-complete block (which clears the claim reference, writes the
volume, and on success falls through without returning), then the tail. -/
def reconcileVolume (env : VolumeEnv) (pv : Volume) : VolumeResult :=
  match pv.claimRef with
  | none => VolumeResult.ok (some pv) ⟨VolumePhase.available, "", ""⟩ none [] []
  | some _ =>
      if pvRequiresRecycleOrDelete pv then
        let pv2 :=
          match pv.reclaimPolicy with
          | ReclaimPolicy.recycle => setAnnVol pv pvRecycleRequired "true"
          | ReclaimPolicy.delete => setAnnVol pv pvDeleteRequired "true"
          | ReclaimPolicy.retain => pv
        match env.updateVolumeErr with
        | some e =>
            VolumeResult.ok (some pv2) ⟨VolumePhase.failed, e, ""⟩ (some e) [pv2] []
        | none =>
            VolumeResult.ok (some pv2) ⟨VolumePhase.released, "", ""⟩ none [pv2] []
      else if awaitingRecycleToComplete pv then
        VolumeResult.ok (some pv) ⟨VolumePhase.released, "", ""⟩ none [] []
      else if awaitingDeleteToComplete pv then
        VolumeResult.ok (some pv) ⟨VolumePhase.released, "", ""⟩ none [] []
      else if recycleIsComplete pv then
        let pvCleared := { pv with claimRef := none }
        match env.updateVolumeErr with
        | some e =>
            VolumeResult.ok (some pv) ⟨VolumePhase.failed, e, ""⟩ (some e)
              [pvCleared] []
        | none => reconcileVolumeTail env pvCleared [pvCleared]
      else
        reconcileVolumeTail env pv []

/-- Environment of a background recycle/delete task: plugin lookup, handle
construction, the blocking plugin call, and the completion write (`none` =
success throughout). -/
structure TaskEnv where
  pluginFindErr : Option String
  newHandleErr : Option String
  pluginCallErr : Option String
  updateVolumeErr : Option String
deriving DecidableEq

/-- Result of a background task: the in-memory volume after the run, and
every volume write issued to the API facade. -/
structure TaskResult where
  pv : Volume
  updates : List Volume
deriving DecidableEq

/-- `recycleVolume`, branch for branch: plugin lookup failures return with
no effect; a plugin-call error stores a message on the in-memory status and
returns without any API write; success stamps `recycle-required =
recycle-completed` and writes the volume, rolling the annotation back in
memory when the write fails. -/
def recycleVolumeTask (env : TaskEnv) (pv : Volume) : TaskResult :=
  match env.pluginFindErr with
  | some _ => ⟨pv, []⟩
  | none =>
      match env.newHandleErr with
      | some _ => ⟨pv, []⟩
      | none =>
          match env.pluginCallErr with
          | some e => ⟨{ pv with message := "Recycling error: " ++ e }, []⟩
          | none =>
              let pv1 := setAnnVol pv pvRecycleRequired pvRecycleCompleted
              match env.updateVolumeErr with
              | some _ => ⟨setAnnVol pv1 pvRecycleRequired "true", [pv1]⟩
              | none => ⟨pv1, [pv1]⟩

/-- `deleteVolume`, structurally identical to `recycleVolume` with the
deleter plugin, the `Deletion error:` message and the delete annotations. -/
def deleteVolumeTask (env : TaskEnv) (pv : Volume) : TaskResult :=
  match env.pluginFindErr with
  | some _ => ⟨pv, []⟩
  | none =>
      match env.newHandleErr with
      | some _ => ⟨pv, []⟩
      | none =>
          match env.pluginCallErr with
          | some e => ⟨{ pv with message := "Deletion error: " ++ e }, []⟩
          | none =>
              let pv1 := setAnnVol pv pvDeleteRequired pvDeleteCompleted
              match env.updateVolumeErr with
              | some _ => ⟨setAnnVol pv1 pvDeleteRequired "true", [pv1]⟩
              | none => ⟨pv1, [pv1]⟩

/-- C10: every branch of the unbound path of `reconcileClaim` returns a
`ClaimPending` status — `ClaimBound` can only be emitted by the
already-bound branch on a later pass. -/
theorem reconcileClaim_unbound_always_pending (env : ClaimEnv) (claim : Claim)
    (h : claim.volumeName = "") :
    (reconcileClaim env claim).status.phase = ClaimPhase.pending := by
  unfold reconcileClaim
  rw [if_neg (by simp [h])]
  repeat' split
  all_goals try rfl
  all_goals (try simp only [])
  all_goals repeat' split
  all_goals rfl

/-- A volume with no claim reference, sitting in the store under "pv1". -/
def c3Pv : Volume :=
  ⟨"pv1", 10000000000, [AccessMode.rwo], ReclaimPolicy.retain, none, [],
    VolumePhase.available, ""⟩

/-- A claim already pointing at "pv1" through its bound volume name. -/
def c3Claim : Claim :=
  ⟨"c1", "ns", "pv1", [], [AccessMode.rwo], 5000000000, ClaimPhase.pending⟩

/-- Environment for the bound branch: the store holds "pv1", all remote
calls succeed. -/
def c3Env : ClaimEnv :=
  ⟨fun n => if n = "pv1" then some c3Pv else none, Except.ok none,
    fun _ => none, false, false, false⟩

/-- C3 counterexample: the bound volume exists in the cache with no
back-reference yet, and `reconcileClaim` returns phase `ClaimBound` — not
`ClaimPending` — in the very pass that writes the back-reference. -/
theorem bound_branch_returns_bound_not_pending :
    c3Env.volumeStore c3Claim.volumeName = some c3Pv ∧
      c3Pv.claimRef = none ∧
      (reconcileClaim c3Env c3Claim).status.phase = ClaimPhase.bound ∧
      (reconcileClaim c3Env c3Claim).volumeUpdates =
        [{ c3Pv with claimRef := some ⟨"ns", "c1"⟩ }] := by
  decide

/-- C3 amended: when the bound volume exists without a back-reference and
the reference builds, `reconcileClaim` writes the volume with the
back-reference set and immediately returns `ClaimBound` with the volume's
capacity and modes (no claim-reference match is ever checked). -/
theorem reconcileClaim_bound_branch_binds_and_returns_bound (env : ClaimEnv)
    (claim : Claim) (pv : Volume)
    (h0 : claim.volumeName ≠ "")
    (h1 : env.volumeStore claim.volumeName = some pv)
    (h2 : pv.claimRef = none)
    (h3 : env.getRefFails = false) :
    reconcileClaim env claim =
      ⟨claim, ⟨ClaimPhase.bound, some pv.capacity, pv.accessModes⟩, none,
        [{ pv with claimRef := some (refOf claim) }], [], []⟩ := by
  unfold reconcileClaim
  rw [if_pos h0, h1]
  simp only [h2, h3]
  rfl

/-- Witness for the amended C3 theorem at the concrete bound-branch input. -/
theorem reconcileClaim_bound_branch_binds_witness :
    reconcileClaim c3Env c3Claim =
      ⟨c3Claim, ⟨ClaimPhase.bound, some c3Pv.capacity, c3Pv.accessModes⟩, none,
        [{ c3Pv with claimRef := some (refOf c3Claim) }], [], []⟩ :=
  reconcileClaim_bound_branch_binds_and_returns_bound c3Env c3Claim c3Pv
    (by decide) (by decide) rfl rfl

/-- C7: when the claim write of the search branch fails, the in-memory
volume-name change is rolled back, the status stays `ClaimPending` and the
error surfaces — the returned claim equals the input claim. -/
theorem reconcileClaim_rollback_on_claim_write_failure (env : ClaimEnv)
    (claim : Claim) (pv : Volume)
    (h0 : claim.volumeName = "")
    (h1 : env.findBestMatch = Except.ok (some pv))
    (h2 : env.updateClaimFails = true) :
    (reconcileClaim env claim).claim = claim ∧
      (reconcileClaim env claim).status.phase = ClaimPhase.pending ∧
      (reconcileClaim env claim).err.isSome = true := by
  unfold reconcileClaim
  rw [if_neg (by simp [h0]), h1]
  simp only [h2, if_true]
  refine ⟨?_, rfl, rfl⟩
  cases claim
  simp_all

/-- A matching volume for the write-failure scenario. -/
def c7Pv : Volume :=
  ⟨"pv7", 10000000000, [AccessMode.rwo], ReclaimPolicy.retain, none, [],
    VolumePhase.available, ""⟩

/-- An unbound claim for the write-failure scenario. -/
def c7Claim : Claim :=
  ⟨"c7", "ns", "", [], [AccessMode.rwo], 5000000000, ClaimPhase.pending⟩

/-- Environment where the search succeeds but the claim write fails. -/
def c7Env : ClaimEnv :=
  ⟨fun _ => none, Except.ok (some c7Pv), fun _ => none, false, true, false⟩

/-- Witness for C7 at the concrete write-failure input. -/
theorem reconcileClaim_rollback_witness :
    (reconcileClaim c7Env c7Claim).claim = c7Claim ∧
      (reconcileClaim c7Env c7Claim).status.phase = ClaimPhase.pending ∧
      (reconcileClaim c7Env c7Claim).err.isSome = true :=
  reconcileClaim_rollback_on_claim_write_failure c7Env c7Claim c7Pv rfl rfl rfl

/-- An environment for C10's witness: no volumes, no match, no plugins. -/
def c10Env : ClaimEnv :=
  ⟨fun _ => none, Except.ok none, fun _ => none, false, false, false⟩

/-- A fresh unbound claim for C10's witness. -/
def c10Claim : Claim :=
  ⟨"c10", "ns", "", [], [AccessMode.rwo], 5000000000, ClaimPhase.pending⟩

/-- Witness for C10 at a concrete unbound claim. -/
theorem reconcileClaim_unbound_always_pending_witness :
    c10Claim.volumeName = "" ∧
      (reconcileClaim c10Env c10Claim).status.phase = ClaimPhase.pending :=
  ⟨rfl, reconcileClaim_unbound_always_pending c10Env c10Claim rfl⟩

/-- A released volume whose recycle has completed: the recycle-required
annotation carries the recycle-completed value and the claim reference is
still set. -/
def c4Pv : Volume :=
  ⟨"pv-recyc", 10000000000, [AccessMode.rwo], ReclaimPolicy.recycle,
    some ⟨"ns", "c-r"⟩, [(pvRecycleRequired, pvRecycleCompleted)],
    VolumePhase.released, ""⟩

/-- Environment for the recycle-complete pass: the claim is gone and every
write succeeds. -/
def c4Env : VolumeEnv :=
  ⟨fun _ => none, GetClaimOutcome.notFound, none, none⟩

/-- C4: on a volume whose recycle completed, `reconcileVolume` clears the
claim reference and writes the volume, then falls through and dereferences
the now-nil `pv.Spec.ClaimRef` — a nil-pointer panic instead of a normal
return. -/
theorem reconcileVolume_crashes_on_completed_recycle :
    recycleIsComplete c4Pv = true ∧ c4Pv.claimRef.isSome = true ∧
      reconcileVolume c4Env c4Pv =
        VolumeResult.crash [{ c4Pv with claimRef := none }] := by
  decide

/-- Mutual exclusion of the recycle-required and delete-required keys on a
volume's annotations. -/
def annExclusive (pv : Volume) : Bool :=
  !(keyExists pvRecycleRequired pv.annotations &&
    keyExists pvDeleteRequired pv.annotations)

/-- Every volume object a `reconcileVolume` outcome carries: the returned
volume, the issued updates, and the issued deletes. -/
def resultVolumes : VolumeResult → List Volume
  | VolumeResult.crash upds => upds
  | VolumeResult.ok pvOpt _ _ upds dels => pvOpt.toList ++ upds ++ dels

theorem keyExists_append_single (anns : Anns) (k k' v : String) :
    keyExists k (anns ++ [(k', v)]) = (keyExists k anns || (k' == k)) := by
  simp [keyExists, List.any_append]

theorem setAnn_of_not_exists (anns : Anns) (k v : String)
    (h : keyExists k anns = false) : setAnn anns k v = anns ++ [(k, v)] := by
  simp [setAnn, h]

theorem annExclusive_stamp_recycle (pv : Volume)
    (hrec : keyExists pvRecycleRequired pv.annotations = false)
    (hdel : keyExists pvDeleteRequired pv.annotations = false) :
    annExclusive (setAnnVol pv pvRecycleRequired "true") = true := by
  have hne : (pvRecycleRequired == pvDeleteRequired) = false := by decide
  simp only [annExclusive, setAnnVol]
  rw [setAnn_of_not_exists _ _ _ hrec, keyExists_append_single,
    keyExists_append_single, hdel]
  simp [hne]

theorem annExclusive_stamp_delete (pv : Volume)
    (hrec : keyExists pvRecycleRequired pv.annotations = false)
    (hdel : keyExists pvDeleteRequired pv.annotations = false) :
    annExclusive (setAnnVol pv pvDeleteRequired "true") = true := by
  have hne : (pvDeleteRequired == pvRecycleRequired) = false := by decide
  simp only [annExclusive, setAnnVol]
  rw [setAnn_of_not_exists _ _ _ hdel, keyExists_append_single,
    keyExists_append_single, hrec]
  simp [hne]

theorem matched_result_volumes (pv : Volume) (c : Claim) (upds : List Volume) :
    ∀ w ∈ resultVolumes (reconcileVolumeMatched pv c upds), w = pv ∨ w ∈ upds := by
  unfold reconcileVolumeMatched
  repeat' split
  all_goals intro w hw
  all_goals simp [resultVolumes] at hw
  all_goals tauto

theorem tail_result_volumes (env : VolumeEnv) (pv : Volume) (upds : List Volume) :
    ∀ w ∈ resultVolumes (reconcileVolumeTail env pv upds), w = pv ∨ w ∈ upds := by
  unfold reconcileVolumeTail
  repeat' split
  all_goals first
    | exact matched_result_volumes pv _ upds
    | (intro w hw; simp [resultVolumes] at hw; tauto)

/-- C5 amended: `reconcileVolume` preserves mutual exclusion of the
recycle-required and delete-required keys — it stamps one of them only
when neither is present and stamps exactly one, and no branch introduces
the other; the provisioning-required key is outside this exclusion. -/
theorem reconcileVolume_preserves_required_exclusion (env : VolumeEnv)
    (pv : Volume) (h : annExclusive pv = true) :
    ∀ w ∈ resultVolumes (reconcileVolume env pv), annExclusive w = true := by
  unfold reconcileVolume
  cases hcr : pv.claimRef with
  | none =>
      intro w hw
      simp [resultVolumes] at hw
      subst hw
      exact h
  | some ref =>
      by_cases hreq : pvRequiresRecycleOrDelete pv = true
      · rw [if_pos hreq]
        have hrd : keyExists pvRecycleRequired pv.annotations = false ∧
            keyExists pvDeleteRequired pv.annotations = false := by
          unfold pvRequiresRecycleOrDelete at hreq
          simp [Bool.and_eq_true] at hreq
          tauto
        have hpv2 : annExclusive
            (match pv.reclaimPolicy with
              | ReclaimPolicy.recycle => setAnnVol pv pvRecycleRequired "true"
              | ReclaimPolicy.delete => setAnnVol pv pvDeleteRequired "true"
              | ReclaimPolicy.retain => pv) = true := by
          cases pv.reclaimPolicy with
          | recycle => exact annExclusive_stamp_recycle pv hrd.1 hrd.2
          | delete => exact annExclusive_stamp_delete pv hrd.1 hrd.2
          | retain => exact h
        cases henv : env.updateVolumeErr with
        | some e =>
            intro w hw
            simp [resultVolumes] at hw
            subst hw
            exact hpv2
        | none =>
            intro w hw
            simp [resultVolumes] at hw
            subst hw
            exact hpv2
      · rw [if_neg hreq]
        by_cases h1 : awaitingRecycleToComplete pv = true
        · rw [if_pos h1]
          intro w hw
          simp [resultVolumes] at hw
          subst hw
          exact h
        · rw [if_neg h1]
          by_cases h2 : awaitingDeleteToComplete pv = true
          · rw [if_pos h2]
            intro w hw
            simp [resultVolumes] at hw
            subst hw
            exact h
          · rw [if_neg h2]
            by_cases h3 : recycleIsComplete pv = true
            · rw [if_pos h3]
              cases henv : env.updateVolumeErr with
              | some e =>
                  intro w hw
                  simp [resultVolumes] at hw
                  rcases hw with rfl | rfl
                  · exact h
                  · exact h
              | none =>
                  intro w hw
                  rcases tail_result_volumes env { pv with claimRef := none }
                      [{ pv with claimRef := none }] w hw with rfl | hmem
                  · exact h
                  · simp at hmem
                    subst hmem
                    exact h
            · rw [if_neg h3]
              intro w hw
              rcases tail_result_volumes env pv [] w hw with rfl | hmem
              · exact h
              · simp at hmem

/-- The template the provisioner plugin returns, policy Delete as the
reconciler's volume options request. -/
def provTemplate : Volume :=
  ⟨"pv-prov", 3000000000, [AccessMode.rwo], ReclaimPolicy.delete, none, [],
    VolumePhase.pending, ""⟩

/-- The registered provisioner plugin for tier "foo". -/
def provPlugin : Plugin := ⟨provTemplate⟩

/-- A claim requesting dynamic provisioning through the qos annotation. -/
def c5Claim : Claim :=
  ⟨"c2", "ns", "", [(qosProvisioningKey, "foo")], [AccessMode.rwo],
    3000000000, ClaimPhase.pending⟩

/-- Claim-reconcile environment with no matching volume and plugin "foo". -/
def c5ClaimEnv : ClaimEnv :=
  ⟨fun _ => none, Except.ok none,
    fun q => if q = "foo" then some provPlugin else none, false, false, false⟩

/-- The volume the provisioning branch creates for `c5Claim`. -/
def provVolume : Volume :=
  { provTemplate with
      claimRef := some ⟨"ns", "c2"⟩,
      annotations :=
        [(provisionedForKey, "ns/c2"), (pvProvisioningRequired, "true"),
          (qosProvisioningKey, "foo")] }

/-- Volume-reconcile environment after the claim has been deleted. -/
def c5VolEnv : VolumeEnv :=
  ⟨fun _ => none, GetClaimOutcome.notFound, none, none⟩

/-- The provisioned volume once its Released status has been written back. -/
def provVolumeReleased : Volume := { provVolume with phase := VolumePhase.released }

/-- The provisioned volume after the release pass stamps delete-required. -/
def provVolumeTwoKeys : Volume :=
  { provVolumeReleased with
      annotations := provVolumeReleased.annotations ++ [(pvDeleteRequired, "true")] }

/-- C5 counterexample: a reconciler-reachable trace — provision a volume
for a claim, delete the claim, reconcile twice — leaves the volume holding
both the provisioning-required and the delete-required annotation keys at
once. -/
theorem two_required_annotations_reachable :
    (reconcileClaim c5ClaimEnv c5Claim).volumeCreates = [provVolume] ∧
      reconcileVolume c5VolEnv provVolume =
        VolumeResult.ok (some provVolume) ⟨VolumePhase.released, "", ""⟩ none [] [] ∧
      reconcileVolume c5VolEnv provVolumeReleased =
        VolumeResult.ok (some provVolumeTwoKeys) ⟨VolumePhase.released, "", ""⟩
          none [provVolumeTwoKeys] [] ∧
      keyExists pvProvisioningRequired provVolumeTwoKeys.annotations = true ∧
      keyExists pvDeleteRequired provVolumeTwoKeys.annotations = true := by
  decide

/-- Witness for the amended C5 theorem at a concrete input that exercises
the stamping branch: the released provisioned volume enters with the two
keys mutually exclusive and every resulting volume keeps them so. -/
theorem reconcileVolume_preserves_required_exclusion_witness :
    annExclusive provVolumeReleased = true ∧
      ∀ w ∈ resultVolumes (reconcileVolume c5VolEnv provVolumeReleased),
        annExclusive w = true :=
  ⟨by decide,
    reconcileVolume_preserves_required_exclusion c5VolEnv provVolumeReleased
      (by decide)⟩

/-- A released volume awaiting recycling, input of the background tasks. -/
def c6Pv : Volume :=
  ⟨"pv6", 10000000000, [AccessMode.rwo], ReclaimPolicy.recycle,
    some ⟨"ns", "c6"⟩, [(pvRecycleRequired, "true")], VolumePhase.released, ""⟩

/-- Task environment whose blocking plugin call fails. -/
def c6EnvFail : TaskEnv := ⟨none, none, some "timeout", none⟩

/-- C6 counterexample: when the plugin call fails, neither task issues any
API write at all, and the in-memory volume keeps its phase — no `Failed`
status ever reaches the API. -/
theorem task_failure_performs_no_api_write :
    (recycleVolumeTask c6EnvFail c6Pv).updates = [] ∧
      (recycleVolumeTask c6EnvFail c6Pv).pv.phase = VolumePhase.released ∧
      (deleteVolumeTask c6EnvFail c6Pv).updates = [] ∧
      (deleteVolumeTask c6EnvFail c6Pv).pv.phase = VolumePhase.released := by
  decide

/-- C6 amended: on a plugin-call error the background task only records a
human-readable message on the in-memory volume status and issues no API
write (the phase is untouched); on plugin success it writes the volume
back carrying the corresponding *-completed annotation. -/
theorem task_error_in_memory_success_writes_completion (env : TaskEnv)
    (pv : Volume) (e : String)
    (hf : env.pluginFindErr = none) (hh : env.newHandleErr = none) :
    (env.pluginCallErr = some e →
      recycleVolumeTask env pv =
          ⟨{ pv with message := "Recycling error: " ++ e }, []⟩ ∧
        deleteVolumeTask env pv =
          ⟨{ pv with message := "Deletion error: " ++ e }, []⟩) ∧
    (env.pluginCallErr = none →
      (recycleVolumeTask env pv).updates =
          [setAnnVol pv pvRecycleRequired pvRecycleCompleted] ∧
        (deleteVolumeTask env pv).updates =
          [setAnnVol pv pvDeleteRequired pvDeleteCompleted]) := by
  constructor <;> intro hc
  · simp [recycleVolumeTask, deleteVolumeTask, hf, hh, hc]
  · cases henv : env.updateVolumeErr <;>
      simp [recycleVolumeTask, deleteVolumeTask, hf, hh, hc, henv]

/-- Witness for the amended C6 theorem at a concrete failing plugin call. -/
theorem task_error_in_memory_witness :
    recycleVolumeTask c6EnvFail c6Pv =
        ⟨{ c6Pv with message := "Recycling error: " ++ "timeout" }, []⟩ ∧
      deleteVolumeTask c6EnvFail c6Pv =
        ⟨{ c6Pv with message := "Deletion error: " ++ "timeout" }, []⟩ :=
  (task_error_in_memory_success_writes_completion c6EnvFail c6Pv "timeout"
    rfl rfl).1 rfl

end VCB
